import Mathlib

/-!
Verification of the genotype-construction subsystem of the Dipper
data-ingestion pipeline, as implemented in `dipper/sources/ZFIN.py`
(`_process_genotype_features`, `_process_g2p`), `sources/MGI.py`
(`_map_zygosity`) and `dipper/utils/GraphUtils.py`
(`addIndividualToGraph`, `addTriple`).

Embedding conventions:
* RDF nodes are identified by their curie strings (the `getNode` curie-to-node
  translation of GraphUtils is injective on the identifiers used here, so the
  graph is modelled directly on curie strings).
* An rdflib `Graph` is a set of triples; it is modelled as a duplicate-free
  list, `graphAdd` inserting only when absent.
* Python dicts are insertion-ordered; they are modelled as association lists
  whose update keeps the original key position (`oset`).
* Python object aliasing of the per-genotype dicts (`genoparts` is the same
  object as `geno_hash[genotype_id]`, and in the gene-less branch also as
  `geno_hash[allele_id]`) is modelled by a store of locus maps indexed by
  allocation number, `geno_hash` mapping keys to store indices.
* Fallible Python code (tuple unpacking of a csv row, string concatenation
  with `None`) is modelled with `Except String` / `Option`.
-/

namespace Dipper

/-- One RDF triple (subject, predicate, object), nodes named by curie string. -/
abbrev Triple := String × String × String

/-- rdflib graph, modelled as a duplicate-free list of triples. -/
abbrev Graph := List Triple

/-- The `Graph.add` of rdflib: an RDF graph is a set of triples, so adding an
already-present triple leaves the graph unchanged. -/
def graphAdd (g : Graph) (t : Triple) : Graph :=
  if t ∈ g then g else g ++ [t]

def rdfType : String := "rdf:type"

def rdfsLabel : String := "rdfs:label"

def dcDescription : String := "dc:description"

def owlNamedIndividual : String := "owl:NamedIndividual"

def owlClass : String := "owl:Class"

/-- The `GraphUtils.addTriple` call (GraphUtils.py:440-452), non-literal object case. -/
def addTriple (g : Graph) (s p o : String) : Graph :=
  graphAdd g (s, p, o)

/-- The function `GraphUtils.addIndividualToGraph` (GraphUtils.py:131-143): label triple
only when a label is supplied; one `rdf:type` triple, with the supplied type
when present and `owl:NamedIndividual` otherwise; description triple only when
a description is supplied. -/
def addIndividualToGraph (g : Graph) (id : String) (label : Option String)
    (ty : Option String) (description : Option String) : Graph :=
  let g1 := match label with
    | some l => graphAdd g (id, rdfsLabel, l)
    | none => g
  let g2 := match ty with
    | some t => graphAdd g1 (id, rdfType, t)
    | none => graphAdd g1 (id, rdfType, owlNamedIndividual)
  match description with
  | some d => graphAdd g2 (id, dcDescription, d)
  | none => g2

/-- The function `GraphUtils.addClassToGraph` (GraphUtils.py:102-129); the `type` argument
becomes an `rdfs:subClassOf` triple. -/
def addClassToGraph (g : Graph) (id : String) (label : Option String)
    (ty : Option String) (description : Option String) : Graph :=
  let g1 := graphAdd g (id, rdfType, owlClass)
  let g2 := match label with
    | some l => graphAdd g1 (id, rdfsLabel, l)
    | none => g1
  let g3 := match ty with
    | some t => graphAdd g2 (id, "rdfs:subClassOf", t)
    | none => g2
  match description with
  | some d => graphAdd g3 (id, dcDescription, d)
  | none => g3

/-- Python `str.strip()`: drop leading and trailing whitespace. Defined by
structural recursion over the character list (unlike `String.trim`, which the
kernel cannot reduce). -/
def strip (s : String) : String :=
  ⟨((s.data.dropWhile Char.isWhitespace).reverse.dropWhile Char.isWhitespace).reverse⟩

/-! ### Insertion-ordered dictionaries (Python `dict` semantics) -/

/-- A Python dict: association list in key-insertion order. -/
abbrev ODict (α : Type) := List (String × α)

/-- Python `d.get(k)`: first (unique) binding of `k`. -/
def oget {α : Type} (m : ODict α) (k : String) : Option α :=
  match m with
  | [] => none
  | (k2, v) :: rest => if k2 = k then some v else oget rest k

/-- Python `d[k] = v`: update in place when the key exists (keeping its position),
append otherwise — Python dict insertion-order semantics. -/
def oset {α : Type} (m : ODict α) (k : String) (v : α) : ODict α :=
  match m with
  | [] => [(k, v)]
  | (k2, v2) :: rest => if k2 = k then (k2, v) :: rest else (k2, v2) :: oset rest k v

/-! ### Spec-modelled collaborators

The repository's `Source.make_id` and the `dipper/models/Genotype.py` model
class are referenced by `ZFIN.py` but their files are not part of the source
tree under verification; the definitions below model them from the spec. -/

/-- Modelled from the spec: `Source.make_id` (IdentifierFactory, spec §4.1) is
missing from the source tree. It is a pure, deterministic content-addressed
identifier built by hashing the input string and prefixing an internal
marker; the spec assumes the hash never collides, so the hash is modelled as
the identity on the input string. -/
def make_id (s : String) : String := "_:" ++ s

/-- Modelled from the spec: `Genotype.zygosity['homozygous']` of the missing
`Genotype.py` model. The id is the GENO class for homozygous, as fixed by the
`_map_zygosity` table of `sources/MGI.py`. -/
def zygosity_homozygous : String := "GENO:0000136"

/-- Modelled from the spec: `Genotype.zygosity['heterozygous']` of the missing
`Genotype.py` model (GENO id per the `sources/MGI.py` table). -/
def zygosity_heterozygous : String := "GENO:0000135"

/-- Modelled from the spec: `Genotype.zygosity['indeterminate']` of the missing
`Genotype.py` model (GENO id per the `sources/MGI.py` table). -/
def zygosity_indeterminate : String := "GENO:0000137"

/-- Relationship tag of spec §6 for genotype/GVC composition. -/
def has_alternate_part : String := "has_alternate_part"

/-- Relationship tag of spec §6 for genotype → background strain. -/
def has_reference_part : String := "has_reference_part"

/-- Relationship tag of spec §6 for allele → gene. -/
def is_allele_of : String := "is_allele_of"

/-- Type tag: `Genotype.genoparts['variant_single_locus_complement']`
(modelled from the spec, Genotype.py missing). -/
def vslc_type : String := "variant_single_locus_complement"

/-- Type tag: `Genotype.genoparts['genomic_variation_complement']`
(modelled from the spec, Genotype.py missing). -/
def gvc_type : String := "genomic_variation_complement"

/-- Type tag for a genotype entity (modelled from the spec, Genotype.py
missing). -/
def intrinsic_genotype : String := "intrinsic_genotype"

/-- Modelled from the spec: `Genotype.addGenotype(id, label)` of the missing
`Genotype.py` declares the genotype entity (id, label, type tag), spec §6. -/
def addGenotype (g : Graph) (id label : String) : Graph :=
  addIndividualToGraph g id (some label) (some intrinsic_genotype) none

/-- Modelled from the spec: `Genotype.addAllele(id, label, type)` of the
missing `Genotype.py` declares the allele entity. -/
def addAllele (g : Graph) (id label : String) (ty : Option String) : Graph :=
  addIndividualToGraph g id (some label) ty none

/-- Modelled from the spec: `Genotype.addGene(id, symbol)` of the missing
`Genotype.py` declares the gene as a class with its symbol as label. -/
def addGene (g : Graph) (id symbol : String) : Graph :=
  addClassToGraph g id (some symbol) none none

/-- Modelled from the spec: `Genotype.addAlleleOfGene` of the missing
`Genotype.py` links allele to gene with the `is_allele_of` tag (spec §6). -/
def addAlleleOfGene (g : Graph) (allele gene : String) : Graph :=
  addTriple g allele is_allele_of gene

/-- Modelled from the spec: `Genotype.addDerivesFrom` of the missing
`Genotype.py` links an allele to the construct it derives from (spec §3). -/
def addDerivesFrom (g : Graph) (allele construct : String) : Graph :=
  addTriple g allele "derives_from" construct

/-- Modelled from the spec: `Genotype.addPartsToVSLC(vslc, a1, a2, zygosity)`
of the missing `Genotype.py` wires VSLC → allele composition triples and the
zygosity of the VSLC (spec §4.4/§6). -/
def addPartsToVSLC (g : Graph) (vslc a1 : String) (a2 zyg : Option String) : Graph :=
  let g1 := addTriple g vslc has_alternate_part a1
  let g2 := match a2 with
    | some a => addTriple g1 vslc has_alternate_part a
    | none => g1
  match zyg with
  | some z => addTriple g2 vslc "has_zygosity" z
  | none => g2

end Dipper

namespace Dipper

/-! ### ZFIN `_process_genotype_features` (ZFIN.py:155-381) -/

/-- The `type_map` of `ZFIN._map_allele_type_to_geno` (ZFIN.py:383-404). -/
def allele_type_map : ODict String :=
  [("complex_substitution", "SO:1000005"),
   ("deficiency", "SO:1000029"),
   ("deletion", "SO:0000159"),
   ("indel", "SO:1000032"),
   ("insertion", "SO:0000667"),
   ("point_mutation", "SO:1000008"),
   ("sequence_variant", "SO:0001060"),
   ("transgenic_insertion", "SO:0001218"),
   ("transgenic_unspecified", "SO:0000781"),
   ("transloc", "SO:0000199"),
   ("unspecified", "SO:0001059")]

/-- The function `ZFIN._map_allele_type_to_geno` (ZFIN.py:383-404). The membership test
strips the input but the lookup does not (`type_map.get(allele_type)`), so a
recognized-after-strip key with surrounding whitespace yields `none` (Python
`None`); an unrecognized key is logged and yields the default
`SO:0001059`. -/
def map_allele_type_to_geno (t : String) : Option String :=
  if (oget allele_type_map (strip t)).isSome then oget allele_type_map t
  else some "SO:0001059"

/-- The per-locus accumulation of ZFIN.py:221-231 (gene branch) and
ZFIN.py:236-240 (gene-less branch, where `prev` is `none` because the list is
overwritten): append the allele id; a `"homozygous"` zygosity hint appends it
a second time; an `"unknown"` hint appends the sentinel `"?"`. -/
def append_locus (prev : Option (List String)) (allele_id zygosity_hint : String) :
    List String :=
  let l := match prev with
    | none => [allele_id]
    | some l0 => l0 ++ [allele_id]
  if zygosity_hint = "homozygous" then l ++ [allele_id]
  else if zygosity_hint = "unknown" then l ++ ["?"]
  else l

/-- The zygosity block of ZFIN.py:277-290, producing
(zygosity id, updated allele2 id, updated allele2 label): a `"?"` second
entry means indeterminate (and resets allele2 to `None` with label `"?"`);
`"complex"` leaves the zygosity unassigned (`pass`); otherwise distinct
alleles are heterozygous and equal alleles homozygous; a missing second entry
means indeterminate. -/
def resolve_locus (allele1_id : String) (allele2_id : Option String)
    (allele2_label : Option String) :
    Option String × Option String × Option String :=
  match allele2_id with
  | some a2 =>
    if a2 = "?" then (some zygosity_indeterminate, none, some "?")
    else if a2 = "complex" then (none, some a2, allele2_label)
    else if allele1_id ≠ a2 then (some zygosity_heterozygous, some a2, allele2_label)
    else (some zygosity_homozygous, some a2, allele2_label)
  | none => (some zygosity_indeterminate, none, allele2_label)

/-- The zygosity resolved for a locus list as ZFIN.py:268-290 computes it:
first entry is allele1, optional second entry is allele2. -/
def resolve_zygosity (parts : List String) : Option String :=
  match parts with
  | [] => none
  | a1 :: rest => (resolve_locus a1 rest.head? none).1

/-- The VSLC label composition of ZFIN.py:308-318, paired with whether the
no-label data-quality error is logged (`logger.error`, ZFIN.py:317). -/
def vslc_label_of (gene_label allele1_label allele2_label : Option String) :
    String × Bool :=
  match gene_label, allele1_label, allele2_label with
  | some g, some a1, some a2 =>
    (g ++ "<" ++ a1 ++ ">/" ++ g ++ "<" ++ a2 ++ ">", false)
  | none, some a1, some a2 => ("<" ++ a1 ++ ">/<" ++ a2 ++ ">", false)
  | some g, some a1, none => (g ++ "<" ++ a1 ++ ">", false)
  | none, some a1, none => ("<" ++ a1 ++ ">", false)
  | _, _, _ => ("", true)

/-- The genotype-name decoration of ZFIN.py:180-185: a known background
appends its bracketed label, an unknown background appends `" [n.s.]"`.
`none` models the Python `TypeError` raised when the background id is known
but `label_hash['background_label']` has no label for it (string
concatenation with `None`). -/
def genotype_label_with_background (name : String) (background_id : Option String)
    (background_label_hash : ODict String) : Option String :=
  match background_id with
  | some b => (oget background_label_hash b).map
      (fun l => name ++ " [" ++ l ++ "]")
  | none => some (name ++ " [n.s.]")

/-- One tab-separated row of the `geno` file, ZFIN.py:174-176. -/
structure GenoRow where
  genotype_id : String
  genotype_name : String
  genotype_unique_name : String
  allele_id : String
  allele_name : String
  allele_ab : String
  allele_type : String
  allele_disp_type : String
  gene_symbol : String
  gene_id : String
  zygosity : String
  construct_name : String
  construct_id : String
  other : String

/-- The tuple unpacking of ZFIN.py:174-176: a row must have exactly 14
fields; any other shape raises a `ValueError` (modelled as `none`). -/
def unpack_row (r : List String) : Option GenoRow :=
  match r with
  | [f1, f2, f3, f4, f5, f6, f7, f8, f9, f10, f11, f12, f13, f14] =>
    some ⟨f1, f2, f3, f4, f5, f6, f7, f8, f9, f10, f11, f12, f13, f14⟩
  | _ => none

/-- A per-locus map: gene id (or allele id when the gene is unknown) to the
ordered allele-reference list, one Python dict `geno_hash[key]`. -/
abbrev LocusMap := ODict (List String)

/-- State threaded through the row loop of ZFIN.py:171-249. `geno_hash` maps
keys to indices into `store`, which holds the locus-map objects; this models
Python aliasing (in the gene-less branch `geno_hash[allele_id]` is the very
same dict object as `geno_hash[genotype_id]`, ZFIN.py:244). -/
structure FeatState where
  graph : Graph
  geno_hash : ODict Nat
  store : List LocusMap
  gene_label : ODict String
  allele_label : ODict String
  construct_label : ODict String
  genotype_label : ODict String
  last_genotype_id : String

def initFeatState : FeatState :=
  ⟨[], [], [], [], [], [], [], ""⟩

end Dipper

namespace Dipper

/-- One iteration of the row loop of ZFIN.py:178-249. Graph writes, hash
updates and the locus accumulation are performed in source order; the
gene-present branch (ZFIN.py:202-232) keys the locus by gene id, the
gene-less branch (ZFIN.py:233-246) keys it by allele id and registers the
same locus-map object under the allele id in `geno_hash` (aliasing). -/
def step_row (bg : ODict String) (bglab : ODict String) (st : FeatState)
    (row : GenoRow) : Except String FeatState :=
  let genotype_id := "ZFIN:" ++ strip row.genotype_id
  let background_id := oget bg genotype_id
  match genotype_label_with_background row.genotype_name background_id bglab with
  | none => Except.error "TypeError: can only concatenate str to str"
  | some genotype_name =>
    let graph := addGenotype st.graph genotype_id genotype_name
    let geno_hash := st.geno_hash
    let store := st.store
    let (geno_hash, store) :=
      if (oget geno_hash genotype_id).isSome then (geno_hash, store)
      else (oset geno_hash genotype_id store.length, store ++ [([] : LocusMap)])
    let ix := (oget geno_hash genotype_id).getD 0
    let genotype_label :=
      if (oget st.genotype_label genotype_id).isSome then st.genotype_label
      else oset st.genotype_label genotype_id genotype_name
    let allele_type := map_allele_type_to_geno row.allele_type
    let allele_id := "ZFIN:" ++ strip row.allele_id
    let graph := addAllele graph allele_id row.allele_name allele_type
    if strip row.gene_id ≠ "" then
      let gene_id := "ZFIN:" ++ strip row.gene_id
      let graph := addGene graph gene_id row.gene_symbol
      let gene_label :=
        if (oget st.gene_label gene_id).isSome then st.gene_label
        else oset st.gene_label gene_id row.gene_symbol
      let allele_label :=
        if (oget st.allele_label allele_id).isSome then st.allele_label
        else oset st.allele_label allele_id row.allele_name
      let (graph, construct_label) :=
        if strip row.construct_id ≠ "" then
          let construct_id := "ZFIN:" ++ strip row.construct_id
          let graph2 := addDerivesFrom graph allele_id construct_id
          let construct_label :=
            if (oget st.construct_label construct_id).isSome then st.construct_label
            else oset st.construct_label construct_id row.construct_name
          (graph2, construct_label)
        else (graph, st.construct_label)
      let graph := addAlleleOfGene graph allele_id gene_id
      let locusmap := store.getD ix []
      let locus := append_locus (oget locusmap gene_id) allele_id row.zygosity
      let store := store.set ix (oset locusmap gene_id locus)
      Except.ok ⟨graph, geno_hash, store, gene_label, allele_label,
        construct_label, genotype_label, genotype_id⟩
    else
      let locusmap := store.getD ix []
      let locus := append_locus none allele_id row.zygosity
      let store := store.set ix (oset locusmap allele_id locus)
      let geno_hash := oset geno_hash allele_id ix
      let allele_label :=
        if (oget st.allele_label allele_id).isSome then st.allele_label
        else oset st.allele_label allele_id row.allele_name
      Except.ok ⟨graph, geno_hash, store, st.gene_label, allele_label,
        st.construct_label, genotype_label, genotype_id⟩

/-- Per-genotype GVC parts: `gvc_hash[genotype_id]`, mapping `gt+'vslc'` keys
to the ordered vslc-id list for that genotype (ZFIN.py:326-334). -/
abbrev GvcParts := ODict (List String)

/-- One iteration of the per-locus VSLC-building loop of ZFIN.py:261-339:
resolve the zygosity, compute the content-addressed vslc id and the vslc
label, emit the VSLC entity and its part/zygosity triples, and record the id
and the label under the `gt+'vslc'` key. -/
def step_locus (gene_label_hash allele_label_hash : ODict String) (gt : String)
    (acc : Graph × GvcParts × ODict (List String) × Nat)
    (entry : String × List String) :
    Except String (Graph × GvcParts × ODict (List String) × Nat) :=
  let (graph, gvcparts, vlh, counter) := acc
  let (gene_key, variant_locus_parts) := entry
  let gene_label := oget gene_label_hash gene_key
  let gene_id : Option String :=
    if gene_key ∈ variant_locus_parts then none else some gene_key
  match variant_locus_parts with
  | [] => Except.error "IndexError: list index out of range"
  | allele1_id :: rest =>
    let allele1_label := oget allele_label_hash allele1_id
    let allele2_id0 := rest.head?
    let allele2_label0 := match allele2_id0 with
      | some a => oget allele_label_hash a
      | none => none
    let (zygosity_id, allele2_id, allele2_label) :=
      resolve_locus allele1_id allele2_id0 allele2_label0
    let g := gene_id.getD ""
    let a2 := allele2_id.getD ""
    let vslc_id := make_id (g ++ "-" ++ allele1_id ++ "-" ++ a2)
    let (vslc_label, _) := vslc_label_of gene_label allele1_label allele2_label
    let graph := addIndividualToGraph graph vslc_id (some vslc_label) (some vslc_type) none
    let graph := addPartsToVSLC graph vslc_id allele1_id allele2_id zygosity_id
    let gt_vslc := gt ++ "vslc"
    let gvcparts :=
      if counter = 0 then oset gvcparts gt_vslc [vslc_id]
      else if (oget gvcparts vslc_id).isSome then gvcparts
      else oset gvcparts gt_vslc (((oget gvcparts gt_vslc).getD []) ++ [vslc_id])
    let counter := counter + 1
    let vlh :=
      if (oget vlh gt_vslc).isNone then oset vlh gt_vslc [vslc_label]
      else if vslc_id ∈ (oget vlh gt_vslc).getD [] then vlh
      else oset vlh gt_vslc (((oget vlh gt_vslc).getD []) ++ [vslc_label])
    Except.ok (graph, gvcparts, vlh, counter)

/-- State threaded through the vslc-building loop over `geno_hash`
(ZFIN.py:254-344). -/
structure BuildState where
  graph : Graph
  gvc_hash : ODict GvcParts
  vslc_label_hash : ODict (List String)

/-- One iteration of `for gt in geno_hash` (ZFIN.py:254-344). The
initialization test of ZFIN.py:255 uses the stale row-loop variable
`genotype_id` — the LAST processed row's genotype id — rather than `gt`, so
`gvc_hash` only ever has that one key; `gvcparts` aliases
`gvc_hash[genotype_id]`, so the per-locus writes are written back there. -/
def step_gt (stA : FeatState) (acc : BuildState) (entry : String × Nat) :
    Except String BuildState :=
  let (gt, ix) := entry
  let gvc_hash :=
    if (oget acc.gvc_hash stA.last_genotype_id).isSome then acc.gvc_hash
    else oset acc.gvc_hash stA.last_genotype_id []
  let gvcparts := (oget gvc_hash stA.last_genotype_id).getD []
  let genoparts := stA.store.getD ix []
  match genoparts.foldlM (step_locus stA.gene_label stA.allele_label gt)
      (acc.graph, gvcparts, acc.vslc_label_hash, 0) with
  | Except.error e => Except.error e
  | Except.ok (graph, gvcparts, vlh, _) =>
    Except.ok ⟨graph, oset gvc_hash stA.last_genotype_id gvcparts, vlh⟩

/-- One iteration of the inner loop of ZFIN.py:351-367: build one GVC from an
entry of `gvc_hash[gt]` (label parts looked up in `vslc_label_hash`), emit the
GVC entity, wire GVC → VSLC triples, and thread the last-built gvc id. -/
def step_gvc (vlh : ODict (List String)) (acc : Graph × String)
    (entry : String × List String) : Graph × String :=
  let (key, genomic_variation_complement_parts) := entry
  let gvc_label_parts := (oget vlh key).getD []
  let gvc_id := make_id (String.intercalate "-" genomic_variation_complement_parts)
  let gvc_label := String.intercalate "; " gvc_label_parts
  let graph := addIndividualToGraph acc.1 gvc_id (some gvc_label) (some gvc_type) none
  let graph := genomic_variation_complement_parts.foldl
    (fun gr i => addTriple gr gvc_id has_alternate_part i) graph
  (graph, gvc_id)

/-- One iteration of `for gt in gvc_hash` (ZFIN.py:347-371): run the inner
loop starting from the placeholder gvc id `"<empty>"` (ZFIN.py:348), then —
after the inner loop — add a single genotype → GVC triple using the
last-built gvc id (ZFIN.py:371). -/
def step_gvc_gt (vlh : ODict (List String)) (graph : Graph)
    (entry : String × GvcParts) : Graph :=
  let (gt, gvcparts) := entry
  let (graph2, gvc_id) := gvcparts.foldl (step_gvc vlh) (graph, "<empty>")
  addTriple graph2 gt has_alternate_part gvc_id

/-- Result of `_process_genotype_features`: the output graph plus the
intermediate hashes. -/
structure FeatResult where
  graph : Graph
  geno_hash : ODict Nat
  store : List LocusMap
  gvc_hash : ODict GvcParts
  vslc_label_hash : ODict (List String)
  last_genotype_id : String

/-- One iteration of the row loop including the tuple unpacking of
ZFIN.py:174-176: a row of the wrong shape raises a `ValueError`. -/
def row_step (bg bglab : ODict String) (st : FeatState) (r : List String) :
    Except String FeatState :=
  match unpack_row r with
  | none => Except.error "ValueError: not enough values to unpack"
  | some row => step_row bg bglab st row

/-- The function `ZFIN._process_genotype_features` (ZFIN.py:155-381) on the
`limit=None` path: the row loop, then the vslc-building loop over
`geno_hash`, then the gvc loop over `gvc_hash`. The genotype-to-background
map `bg` and the background-label hash `bglab` produced by the earlier
passes (`_process_genotype_backgrounds`, `_process_wildtypes`) are supplied
as inputs; rows are the raw tab-separated fields. -/
def process_genotype_features (bg bglab : ODict String)
    (rows : List (List String)) : Except String FeatResult :=
  match rows.foldlM (row_step bg bglab) initFeatState with
  | Except.error e => Except.error e
  | Except.ok stA =>
    match stA.geno_hash.foldlM (step_gt stA) (⟨stA.graph, [], []⟩ : BuildState) with
    | Except.error e => Except.error e
    | Except.ok stB =>
      let graph := stB.gvc_hash.foldl (step_gvc_gt stB.vslc_label_hash) stB.graph
      Except.ok ⟨graph, stA.geno_hash, stA.store, stB.gvc_hash,
        stB.vslc_label_hash, stA.last_genotype_id⟩

/-- Projection of a pipeline result to its output graph (empty on the
error/exception path). -/
def graph_of (e : Except String FeatResult) : Graph :=
  match e with
  | Except.ok st => st.graph
  | Except.error _ => []

/-- Whether the pipeline completed without raising (Except is `.ok`). -/
def run_ok (e : Except String FeatResult) : Bool :=
  match e with
  | Except.ok _ => true
  | Except.error _ => false

/-! ### The effective-genotype label of `_process_g2p` (ZFIN.py:771-785) -/

/-- The effective-genotype label composition of ZFIN.py:771-785, paired with
whether the no-label error is logged (ZFIN.py:784). When neither an intrinsic
nor an extrinsic label is available the code emits the literal placeholder
string `"<empty"` (ZFIN.py:785), not the empty string. -/
def effective_genotype_label (intrinsic extrinsic : Option String) : String × Bool :=
  match intrinsic, extrinsic with
  | some i, some e => (i ++ "; " ++ e, false)
  | none, some e => (e, false)
  | some i, none => (i, false)
  | none, none => ("<empty", true)

/-! ### MGI `_map_zygosity` (sources/MGI.py:1009-1031) -/

/-- The `type_map` of `MGI._map_zygosity` (MGI.py:1011-1023). -/
def mgi_zygosity_map : ODict String :=
  [("Heterozygous", "GENO:0000135"),
   ("Hemizygous Y-linked", "GENO:0000604"),
   ("Heteroplasmic", "GENO:0000603"),
   ("Homozygous", "GENO:0000136"),
   ("Homoplasmic", "GENO:0000602"),
   ("Hemizygous Insertion", "GENO:0000606"),
   ("Hemizygous Deletion", "GENO:0000606"),
   ("Hemizygous X-linked", "GENO:0000605"),
   ("Indeterminate", "GENO:0000137")]

/-- The function `MGI._map_zygosity` (MGI.py:1009-1031): the membership test
strips the hint, the lookup does not (`type_map.get(zygosity)`); an
unrecognized hint is error-printed (the Bool) and the initial `None` is
returned — there is no Indeterminate fallback. -/
def map_zygosity (z : String) : Option String × Bool :=
  if (oget mgi_zygosity_map (strip z)).isSome then (oget mgi_zygosity_map z, false)
  else (none, true)

end Dipper

namespace Dipper

/-! ### Facts about the graph layer -/

theorem mem_graphAdd_self (g : Graph) (t : Triple) : t ∈ graphAdd g t := by
  unfold graphAdd
  split
  · assumption
  · exact List.mem_append.mpr (Or.inr (List.mem_singleton.mpr rfl))

theorem mem_graphAdd_of_mem {g : Graph} {t : Triple} (t2 : Triple) (h : t ∈ g) :
    t ∈ graphAdd g t2 := by
  unfold graphAdd
  split
  · assumption
  · exact List.mem_append.mpr (Or.inl h)

theorem graphAdd_of_mem {g : Graph} {t : Triple} (h : t ∈ g) : graphAdd g t = g := by
  unfold graphAdd
  simp [h]

theorem mem_of_mem_graphAdd {g : Graph} {t t2 : Triple} (h : t ∈ graphAdd g t2) :
    t ∈ g ∨ t = t2 := by
  unfold graphAdd at h
  split at h
  · exact Or.inl h
  · rcases List.mem_append.mp h with h1 | h1
    · exact Or.inl h1
    · exact Or.inr (List.mem_singleton.mp h1)

theorem mem_addIndividualToGraph {g : Graph} {t : Triple} (id : String)
    (lab ty d : Option String) (h : t ∈ g) :
    t ∈ addIndividualToGraph g id lab ty d := by
  cases lab <;> cases ty <;> cases d <;>
    simp only [addIndividualToGraph] <;>
    (repeat apply mem_graphAdd_of_mem) <;>
    exact h

theorem addIndividualToGraph_type_mem (g : Graph) (id : String) (lab ty d : Option String) :
    (id, rdfType, ty.getD owlNamedIndividual) ∈ addIndividualToGraph g id lab ty d := by
  cases ty <;> cases d <;>
    simp only [addIndividualToGraph, Option.getD] <;>
    first
      | exact mem_graphAdd_self _ _
      | exact mem_graphAdd_of_mem _ (mem_graphAdd_self _ _)

theorem addIndividualToGraph_label_mem (g : Graph) (id l : String) (ty d : Option String) :
    (id, rdfsLabel, l) ∈ addIndividualToGraph g id (some l) ty d := by
  cases ty <;> cases d <;>
    simp only [addIndividualToGraph] <;>
    (repeat first
      | exact mem_graphAdd_self _ _
      | apply mem_graphAdd_of_mem)

theorem addIndividualToGraph_desc_mem (g : Graph) (id dd : String) (lab ty : Option String) :
    (id, dcDescription, dd) ∈ addIndividualToGraph g id lab ty (some dd) := by
  cases lab <;> cases ty <;>
    simp only [addIndividualToGraph] <;>
    exact mem_graphAdd_self _ _

theorem addIndividualToGraph_of_mem {g : Graph} {id : String} {lab ty d : Option String}
    (hl : ∀ l, lab = some l → (id, rdfsLabel, l) ∈ g)
    (ht : (id, rdfType, ty.getD owlNamedIndividual) ∈ g)
    (hd : ∀ dd, d = some dd → (id, dcDescription, dd) ∈ g) :
    addIndividualToGraph g id lab ty d = g := by
  cases lab <;> cases ty <;> cases d <;>
    simp only [addIndividualToGraph, Option.getD] at ht ⊢ <;>
    (try rw [graphAdd_of_mem (hl _ rfl)]) <;>
    rw [graphAdd_of_mem ht] <;>
    (try rw [graphAdd_of_mem (hd _ rfl)])

theorem addIndividualToGraph_idem (g : Graph) (id : String) (lab ty d : Option String) :
    addIndividualToGraph (addIndividualToGraph g id lab ty d) id lab ty d
      = addIndividualToGraph g id lab ty d :=
  addIndividualToGraph_of_mem
    (fun l hl => by cases hl; exact addIndividualToGraph_label_mem g id l ty d)
    (addIndividualToGraph_type_mem g id lab ty d)
    (fun dd hdd => by cases hdd; exact addIndividualToGraph_desc_mem g id dd lab ty)

theorem mem_addIndividualToGraph_cases {g : Graph} {id : String}
    {lab ty d : Option String} {t : Triple}
    (h : t ∈ addIndividualToGraph g id lab ty d) :
    t ∈ g ∨ t = (id, rdfType, ty.getD owlNamedIndividual)
      ∨ (∃ l, lab = some l ∧ t = (id, rdfsLabel, l))
      ∨ (∃ dd, d = some dd ∧ t = (id, dcDescription, dd)) := by
  cases lab <;> cases ty <;> cases d <;>
    simp only [addIndividualToGraph, Option.getD] at h
  · rcases mem_of_mem_graphAdd h with h | rfl
    · exact Or.inl h
    · exact Or.inr (Or.inl rfl)
  · rcases mem_of_mem_graphAdd h with h | rfl
    · rcases mem_of_mem_graphAdd h with h | rfl
      · exact Or.inl h
      · exact Or.inr (Or.inl rfl)
    · exact Or.inr (Or.inr (Or.inr ⟨_, rfl, rfl⟩))
  · rcases mem_of_mem_graphAdd h with h | rfl
    · exact Or.inl h
    · exact Or.inr (Or.inl rfl)
  · rcases mem_of_mem_graphAdd h with h | rfl
    · rcases mem_of_mem_graphAdd h with h | rfl
      · exact Or.inl h
      · exact Or.inr (Or.inl rfl)
    · exact Or.inr (Or.inr (Or.inr ⟨_, rfl, rfl⟩))
  · rcases mem_of_mem_graphAdd h with h | rfl
    · rcases mem_of_mem_graphAdd h with h | rfl
      · exact Or.inl h
      · exact Or.inr (Or.inr (Or.inl ⟨_, rfl, rfl⟩))
    · exact Or.inr (Or.inl rfl)
  · rcases mem_of_mem_graphAdd h with h | rfl
    · rcases mem_of_mem_graphAdd h with h | rfl
      · rcases mem_of_mem_graphAdd h with h | rfl
        · exact Or.inl h
        · exact Or.inr (Or.inr (Or.inl ⟨_, rfl, rfl⟩))
      · exact Or.inr (Or.inl rfl)
    · exact Or.inr (Or.inr (Or.inr ⟨_, rfl, rfl⟩))
  · rcases mem_of_mem_graphAdd h with h | rfl
    · rcases mem_of_mem_graphAdd h with h | rfl
      · exact Or.inl h
      · exact Or.inr (Or.inr (Or.inl ⟨_, rfl, rfl⟩))
    · exact Or.inr (Or.inl rfl)
  · rcases mem_of_mem_graphAdd h with h | rfl
    · rcases mem_of_mem_graphAdd h with h | rfl
      · rcases mem_of_mem_graphAdd h with h | rfl
        · exact Or.inl h
        · exact Or.inr (Or.inr (Or.inl ⟨_, rfl, rfl⟩))
      · exact Or.inr (Or.inl rfl)
    · exact Or.inr (Or.inr (Or.inr ⟨_, rfl, rfl⟩))

theorem mem_foldl_addTriple {t : Triple} (s p : String) :
    ∀ (l : List String) (g : Graph), t ∈ g →
      t ∈ l.foldl (fun gr i => addTriple gr s p i) g := by
  intro l
  induction l with
  | nil => intro g h; exact h
  | cons x xs ih => intro g h; exact ih _ (mem_graphAdd_of_mem _ h)

theorem foldl_row_step_error (bg bglab : ODict String) (bad : List String)
    (h : unpack_row bad = none) (post : List (List String)) :
    ∀ (pre : List (List String)) (st : FeatState),
      ∃ e, List.foldlM (row_step bg bglab) st (pre ++ bad :: post) = Except.error e := by
  intro pre
  induction pre with
  | nil =>
    intro st
    refine ⟨"ValueError: not enough values to unpack", ?_⟩
    simp only [List.nil_append, List.foldlM_cons, row_step, h]
    rfl
  | cons r rest ih =>
    intro st
    cases hr : row_step bg bglab st r with
    | error e =>
      refine ⟨e, ?_⟩
      simp only [List.cons_append, List.foldlM_cons, hr]
      rfl
    | ok st2 =>
      obtain ⟨e, he⟩ := ih st2
      refine ⟨e, ?_⟩
      simp only [List.cons_append, List.foldlM_cons, hr]
      exact he

end Dipper

namespace Dipper

/-! ### Concrete row streams used to evaluate the pipeline -/

/-- Row for genotype g1: gene gA, allele a1, heterozygous hint. -/
def c2_row1 : List String :=
  ["g1", "G1", "", "a1", "a1label", "", "unspecified", "", "geneA", "gA",
   "heterozygous", "", "", ""]

/-- Row for genotype g1: gene gA, allele a2, heterozygous hint. -/
def c2_row2 : List String :=
  ["g1", "G1", "", "a2", "a2label", "", "unspecified", "", "geneA", "gA",
   "heterozygous", "", "", ""]

/-- Row for genotype g2: gene gB, allele b1, homozygous hint. -/
def c2_row3 : List String :=
  ["g2", "G2", "", "b1", "b1label", "", "unspecified", "", "geneB", "gB",
   "homozygous", "", "", ""]

/-- Output graph for the two-genotype stream (g1 a heterozygous a1/a2 pair on
gene gA, g2 homozygous b1 on gene gB). -/
def c2_graph : Graph :=
  graph_of (process_genotype_features [] [] [c2_row1, c2_row2, c2_row3])

/-- C1: per-row accumulation represents a homozygous hint by duplicating the
allele id and an unknown hint by the sentinel `"?"`; the resolved zygosity of
a locus is Homozygous when the first two entries are equal allele ids,
Heterozygous when they are distinct allele ids, and Indeterminate when the
second entry is the sentinel or absent. -/
theorem c1_zygosity_resolution (a b : String) (ha : a ≠ "?") (hac : a ≠ "complex")
    (hb : b ≠ "?") (hbc : b ≠ "complex") (hab : a ≠ b) :
    append_locus none a "homozygous" = [a, a]
    ∧ append_locus none a "unknown" = [a, "?"]
    ∧ append_locus (some [a]) b "heterozygous" = [a, b]
    ∧ resolve_zygosity [a, a] = some zygosity_homozygous
    ∧ resolve_zygosity [a, b] = some zygosity_heterozygous
    ∧ resolve_zygosity [a, "?"] = some zygosity_indeterminate
    ∧ resolve_zygosity [a] = some zygosity_indeterminate := by
  refine ⟨rfl, rfl, rfl, ?_, ?_, ?_, rfl⟩ <;>
    simp [resolve_zygosity, resolve_locus, ha, hac, hb, hbc, hab]

/-- Witness for C1 at the concrete allele ids ZFIN:a1 and ZFIN:a2. -/
theorem c1_witness :
    append_locus none "ZFIN:a1" "homozygous" = ["ZFIN:a1", "ZFIN:a1"]
    ∧ append_locus none "ZFIN:a1" "unknown" = ["ZFIN:a1", "?"]
    ∧ append_locus (some ["ZFIN:a1"]) "ZFIN:a2" "heterozygous" = ["ZFIN:a1", "ZFIN:a2"]
    ∧ resolve_zygosity ["ZFIN:a1", "ZFIN:a1"] = some zygosity_homozygous
    ∧ resolve_zygosity ["ZFIN:a1", "ZFIN:a2"] = some zygosity_heterozygous
    ∧ resolve_zygosity ["ZFIN:a1", "?"] = some zygosity_indeterminate
    ∧ resolve_zygosity ["ZFIN:a1"] = some zygosity_indeterminate :=
  c1_zygosity_resolution "ZFIN:a1" "ZFIN:a2" (by decide) (by decide) (by decide)
    (by decide) (by decide)

set_option maxRecDepth 80000 in
/-- C2 (code bug): on a two-genotype stream the flush emits both Genotype
entities, both genotypes' VSLC entities, both GVC entities and both
GVC → VSLC triples, and the last genotype g2 gets its genotype → GVC triple —
but genotype g1 receives no `has_alternate_part` triple at all, because
ZFIN.py:255-257 key `gvc_hash` by the stale row-loop variable `genotype_id`
and ZFIN.py:371 emits the single genotype → GVC triple only after the inner
loop, for that one key. -/
theorem c2_gvc_linking_bug :
    ("ZFIN:g1", rdfType, intrinsic_genotype) ∈ c2_graph
    ∧ ("ZFIN:g2", rdfType, intrinsic_genotype) ∈ c2_graph
    ∧ (make_id ("ZFIN:gA" ++ "-" ++ "ZFIN:a1" ++ "-" ++ "ZFIN:a2"),
        rdfType, vslc_type) ∈ c2_graph
    ∧ (make_id ("ZFIN:gB" ++ "-" ++ "ZFIN:b1" ++ "-" ++ "ZFIN:b1"),
        rdfType, vslc_type) ∈ c2_graph
    ∧ (make_id "_:ZFIN:gA-ZFIN:a1-ZFIN:a2", rdfType, gvc_type) ∈ c2_graph
    ∧ (make_id "_:ZFIN:gB-ZFIN:b1-ZFIN:b1", rdfType, gvc_type) ∈ c2_graph
    ∧ (make_id "_:ZFIN:gA-ZFIN:a1-ZFIN:a2", has_alternate_part,
        make_id "ZFIN:gA-ZFIN:a1-ZFIN:a2") ∈ c2_graph
    ∧ (make_id "_:ZFIN:gB-ZFIN:b1-ZFIN:b1", has_alternate_part,
        make_id "ZFIN:gB-ZFIN:b1-ZFIN:b1") ∈ c2_graph
    ∧ ("ZFIN:g2", has_alternate_part, make_id "_:ZFIN:gB-ZFIN:b1-ZFIN:b1") ∈ c2_graph
    ∧ (∀ t ∈ c2_graph, ¬(t.1 = "ZFIN:g1" ∧ t.2.1 = has_alternate_part)) :=
  ⟨by decide, by decide, by decide, by decide, by decide, by decide, by decide,
   by decide, by decide, by decide⟩

/-- C3: the VSLC label is gene-bracketed-allele pairs when the gene label and
both allele labels are present, bracketed alleles without a gene prefix when
the gene label is absent, a single (optionally gene-prefixed) bracketed
allele when only allele1's label is present, and the empty string with a
logged data-quality warning when no labels are resolvable. -/
theorem c3_vslc_label (g a1 a2 : String) :
    vslc_label_of (some g) (some a1) (some a2)
      = (g ++ "<" ++ a1 ++ ">/" ++ g ++ "<" ++ a2 ++ ">", false)
    ∧ vslc_label_of none (some a1) (some a2) = ("<" ++ a1 ++ ">/<" ++ a2 ++ ">", false)
    ∧ vslc_label_of (some g) (some a1) none = (g ++ "<" ++ a1 ++ ">", false)
    ∧ vslc_label_of none (some a1) none = ("<" ++ a1 ++ ">", false)
    ∧ vslc_label_of none none none = ("", true)
    ∧ vslc_label_of (some "g") (some "a1") (some "a2") = ("g<a1>/g<a2>", false)
    ∧ vslc_label_of none (some "a1") (some "a2") = ("<a1>/<a2>", false) :=
  ⟨rfl, rfl, rfl, rfl, rfl, by decide, by decide⟩

end Dipper

namespace Dipper

/-- Single-genotype row (g1, gene gA, allele a1, heterozygous) used for the
background-label run. -/
def c6_row : List String :=
  ["g1", "G1", "", "a1", "a1label", "", "unspecified", "", "geneA", "gA",
   "heterozygous", "", "", ""]

/-- Single-genotype row (g2) used for the no-background run. -/
def c6_row2 : List String :=
  ["g2", "G2", "", "a1", "a1label", "", "unspecified", "", "geneA", "gA",
   "heterozygous", "", "", ""]

set_option maxRecDepth 80000 in
/-- C6: a genotype with a known genomic background gets the background label
appended in square brackets after a space; a genotype with no background gets
`" [n.s.]"` appended — both for the label helper and in the pipeline's
emitted genotype label. -/
theorem c6_genotype_background_label (name b l : String) (bglab : ODict String)
    (h : oget bglab b = some l) :
    genotype_label_with_background name (some b) bglab = some (name ++ " [" ++ l ++ "]")
    ∧ genotype_label_with_background name none bglab = some (name ++ " [n.s.]")
    ∧ ("ZFIN:g1", rdfsLabel, "G1 [bgLabel]") ∈
        graph_of (process_genotype_features [("ZFIN:g1", "ZFIN:bg1")]
          [("ZFIN:bg1", "bgLabel")] [c6_row])
    ∧ ("ZFIN:g2", rdfsLabel, "G2 [n.s.]") ∈
        graph_of (process_genotype_features [] [] [c6_row2]) := by
  refine ⟨?_, rfl, by decide, by decide⟩
  simp [genotype_label_with_background, h]

/-- Witness for C6 at a concrete background hash. -/
theorem c6_witness :
    genotype_label_with_background "G1" (some "ZFIN:bg1") [("ZFIN:bg1", "bgLabel")]
      = some ("G1" ++ " [" ++ "bgLabel" ++ "]")
    ∧ genotype_label_with_background "G2" none [("ZFIN:bg1", "bgLabel")]
      = some ("G2" ++ " [n.s.]") :=
  ⟨(c6_genotype_background_label "G1" "ZFIN:bg1" "bgLabel"
      [("ZFIN:bg1", "bgLabel")] (by decide)).1,
   (c6_genotype_background_label "G2" "ZFIN:bg1" "bgLabel"
      [("ZFIN:bg1", "bgLabel")] (by decide)).2.1⟩

/-- C7 counterexample: with neither an intrinsic nor an extrinsic label the
composed effective-genotype label is the placeholder `"<empty"`, not the
empty string the claim requires. -/
theorem c7_counterexample :
    (effective_genotype_label none none).1 = "<empty"
    ∧ (effective_genotype_label none none).1 ≠ "" := by decide

/-- C7 (amended): the effective genotype label joins the intrinsic and
extrinsic labels with `"; "` when both are present and is the present one
when exactly one is; when neither is available the code logs an error and
emits the literal placeholder string `"<empty"` (never None, no crash). -/
theorem c7_effective_label (i e : String) :
    effective_genotype_label (some i) (some e) = (i ++ "; " ++ e, false)
    ∧ effective_genotype_label none (some e) = (e, false)
    ∧ effective_genotype_label (some i) none = (i, false)
    ∧ effective_genotype_label none none = ("<empty", true) :=
  ⟨rfl, rfl, rfl, rfl⟩

/-- C8 counterexample: the unmapped hint `"complex"` maps to `none` (Python
`None`) with an error print, not to the Indeterminate id GENO:0000137 the
claim requires the caller to fall back to. -/
theorem c8_counterexample :
    map_zygosity "complex" = (none, true)
    ∧ (map_zygosity "complex").1 ≠ some "GENO:0000137"
    ∧ oget mgi_zygosity_map "Indeterminate" = some "GENO:0000137" := by decide

/-- C8 (amended): every hint in the recognized controlled vocabulary maps to
its fixed GENO zygosity id via the lookup table; a hint not in the vocabulary
raises no exception but is error-logged and yields `None`, which the caller
uses directly (there is no Indeterminate fallback). -/
theorem c8_zygosity_hint_mapping :
    (map_zygosity "Heterozygous" = (some "GENO:0000135", false)
      ∧ map_zygosity "Hemizygous Y-linked" = (some "GENO:0000604", false)
      ∧ map_zygosity "Heteroplasmic" = (some "GENO:0000603", false)
      ∧ map_zygosity "Homozygous" = (some "GENO:0000136", false)
      ∧ map_zygosity "Homoplasmic" = (some "GENO:0000602", false)
      ∧ map_zygosity "Hemizygous Insertion" = (some "GENO:0000606", false)
      ∧ map_zygosity "Hemizygous Deletion" = (some "GENO:0000606", false)
      ∧ map_zygosity "Hemizygous X-linked" = (some "GENO:0000605", false)
      ∧ map_zygosity "Indeterminate" = (some "GENO:0000137", false))
    ∧ (∀ z, oget mgi_zygosity_map (strip z) = none → map_zygosity z = (none, true)) := by
  refine ⟨by decide, ?_⟩
  intro z h
  simp [map_zygosity, h]

/-- Witness for C8 at the concrete hints Homozygous and complex. -/
theorem c8_witness :
    map_zygosity "Homozygous" = (some "GENO:0000136", false)
    ∧ map_zygosity "complex" = (none, true) :=
  ⟨c8_zygosity_hint_mapping.1.2.2.2.1,
   c8_zygosity_hint_mapping.2 "complex" (by decide)⟩

/-- C10: every `addIndividualToGraph` call puts exactly one `rdf:type` triple
for the node into the graph — with the supplied type when one is given and
`owl:NamedIndividual` otherwise — and adds an `rdfs:label` triple only when
the label argument is not None, so an entity with a missing label still gets
a well-formed typed declaration with no label triple. -/
theorem c10_add_individual (g : Graph) (id : String) (lab ty d : Option String) :
    (id, rdfType, ty.getD owlNamedIndividual) ∈ addIndividualToGraph g id lab ty d
    ∧ (∀ s o, (s, rdfType, o) ∈ addIndividualToGraph g id lab ty d →
        (s, rdfType, o) ∈ g ∨ (s = id ∧ o = ty.getD owlNamedIndividual))
    ∧ (∀ t ∈ addIndividualToGraph g id lab ty d,
        t ∈ g ∨ t = (id, rdfType, ty.getD owlNamedIndividual)
          ∨ (∃ l, lab = some l ∧ t = (id, rdfsLabel, l))
          ∨ (∃ dd, d = some dd ∧ t = (id, dcDescription, dd)))
    ∧ (lab = none → ∀ s, (id, rdfsLabel, s) ∈ addIndividualToGraph g id lab ty d →
        (id, rdfsLabel, s) ∈ g) := by
  refine ⟨addIndividualToGraph_type_mem g id lab ty d, ?_, ?_, ?_⟩
  · intro s o hmem
    rcases mem_addIndividualToGraph_cases hmem with h | h | ⟨l, _, h⟩ | ⟨dd, _, h⟩
    · exact Or.inl h
    · rcases Prod.mk.injEq .. ▸ h with ⟨h1, h2⟩
      exact Or.inr ⟨h1, (Prod.mk.injEq .. ▸ h2).2⟩
    · exact absurd (congrArg (fun t => t.2.1) h) (by simp [rdfType, rdfsLabel])
    · exact absurd (congrArg (fun t => t.2.1) h) (by simp [rdfType, dcDescription])
  · intro t hmem
    exact mem_addIndividualToGraph_cases hmem
  · intro hlab s hmem
    rcases mem_addIndividualToGraph_cases hmem with h | h | ⟨l, hl, h⟩ | ⟨dd, _, h⟩
    · exact h
    · exact absurd (congrArg (fun t => t.2.1) h) (by simp [rdfType, rdfsLabel])
    · exact absurd (hlab ▸ hl) (by simp)
    · exact absurd (congrArg (fun t => t.2.1) h) (by simp [rdfsLabel, dcDescription])

/-- Witness for C10 on the empty graph with no label and no type. -/
theorem c10_witness :
    ("x", rdfType, owlNamedIndividual) ∈ addIndividualToGraph [] "x" none none none
    ∧ (("x", rdfsLabel, "y") ∈ addIndividualToGraph [] "x" none none none →
        ("x", rdfsLabel, "y") ∈ ([] : Graph)) :=
  ⟨(c10_add_individual [] "x" none none none).1,
   fun h => (c10_add_individual [] "x" none none none).2.2.2 rfl "y" h⟩

end Dipper

namespace Dipper

/-- Row putting the same homozygous gA/a1 locus under genotype g1. -/
def c4_row1 : List String :=
  ["g1", "G1", "", "a1", "a1label", "", "unspecified", "", "geneA", "gA",
   "homozygous", "", "", ""]

/-- Row putting the identical homozygous gA/a1 locus under genotype g2. -/
def c4_row2 : List String :=
  ["g2", "G2", "", "a1", "a1label", "", "unspecified", "", "geneA", "gA",
   "homozygous", "", "", ""]

set_option maxRecDepth 80000 in
/-- C4: re-emitting an identical entity declaration is idempotent on the
graph, and in a run where two different genotype keys carry the identical
(gene, allele1, allele2) component triple the output graph holds the VSLC
declaration exactly once — the content-addressed id is the same string both
times, and the whole graph contains exactly one VSLC type declaration. -/
theorem c4_vslc_dedup :
    (∀ (g : Graph) (id : String) (lab ty d : Option String),
        addIndividualToGraph (addIndividualToGraph g id lab ty d) id lab ty d
          = addIndividualToGraph g id lab ty d)
    ∧ (graph_of (process_genotype_features [] [] [c4_row1, c4_row2])).count
        (make_id ("ZFIN:gA" ++ "-" ++ "ZFIN:a1" ++ "-" ++ "ZFIN:a1"),
          rdfType, vslc_type) = 1
    ∧ (graph_of (process_genotype_features [] [] [c4_row1, c4_row2])).countP
        (fun t => t.2.1 == rdfType && t.2.2 == vslc_type) = 1 :=
  ⟨addIndividualToGraph_idem, by decide, by decide⟩

/-- Row for the two-locus genotype g1: homozygous gA/a1. -/
def c5_rowA : List String :=
  ["g1", "G1", "", "a1", "a1label", "", "unspecified", "", "geneA", "gA",
   "homozygous", "", "", ""]

/-- Row for the two-locus genotype g1: homozygous gB/b1. -/
def c5_rowB : List String :=
  ["g1", "G1", "", "b1", "b1label", "", "unspecified", "", "geneB", "gB",
   "homozygous", "", "", ""]

set_option maxRecDepth 80000 in
/-- C5: a GVC's id is content-addressed from the ordered (discovery-order,
unsorted) list of its constituent VSLC ids and its label is the `"; "`-join
of the stored VSLC labels; consequently the same two-locus genotype
processed in the two different row orders yields two different GVC
identifiers. -/
theorem c5_gvc_label_and_id :
    (∀ (vlh : ODict (List String)) (gr : Graph) (s key : String) (parts : List String),
        (step_gvc vlh (gr, s) (key, parts)).2 = make_id (String.intercalate "-" parts))
    ∧ (∀ (vlh : ODict (List String)) (gr : Graph) (s key : String) (parts : List String),
        (make_id (String.intercalate "-" parts), rdfsLabel,
          String.intercalate "; " ((oget vlh key).getD []))
          ∈ (step_gvc vlh (gr, s) (key, parts)).1)
    ∧ (make_id ("_:ZFIN:gA-ZFIN:a1-ZFIN:a1" ++ "-" ++ "_:ZFIN:gB-ZFIN:b1-ZFIN:b1"),
        rdfsLabel, "geneA<a1label>/geneA<a1label>; geneB<b1label>/geneB<b1label>")
        ∈ graph_of (process_genotype_features [] [] [c5_rowA, c5_rowB])
    ∧ (make_id ("_:ZFIN:gA-ZFIN:a1-ZFIN:a1" ++ "-" ++ "_:ZFIN:gB-ZFIN:b1-ZFIN:b1"),
        rdfType, gvc_type) ∈ graph_of (process_genotype_features [] [] [c5_rowA, c5_rowB])
    ∧ (make_id ("_:ZFIN:gB-ZFIN:b1-ZFIN:b1" ++ "-" ++ "_:ZFIN:gA-ZFIN:a1-ZFIN:a1"),
        rdfType, gvc_type) ∈ graph_of (process_genotype_features [] [] [c5_rowB, c5_rowA])
    ∧ make_id ("_:ZFIN:gA-ZFIN:a1-ZFIN:a1" ++ "-" ++ "_:ZFIN:gB-ZFIN:b1-ZFIN:b1")
        ≠ make_id ("_:ZFIN:gB-ZFIN:b1-ZFIN:b1" ++ "-" ++ "_:ZFIN:gA-ZFIN:a1-ZFIN:a1") := by
  refine ⟨fun vlh gr s key parts => rfl, ?_, by decide, by decide, by decide, by decide⟩
  intro vlh gr s key parts
  simp only [step_gvc]
  exact mem_foldl_addTriple _ _ parts _
    (addIndividualToGraph_label_mem _ _ _ _ _)

/-- Well-formed row for genotype g1 in the partial-failure stream. -/
def c9_good1 : List String :=
  ["g1", "G1", "", "a1", "a1label", "", "unspecified", "", "geneA", "gA",
   "heterozygous", "", "", ""]

/-- Well-formed row for genotype g2 in the partial-failure stream. -/
def c9_good2 : List String :=
  ["g2", "G2", "", "b1", "b1label", "", "unspecified", "", "geneB", "gB",
   "homozygous", "", "", ""]

/-- Malformed row: only 13 of the required 14 tab-separated fields. -/
def c9_bad_row : List String :=
  ["g1", "G1", "", "a1", "a1label", "", "unspecified", "", "geneA", "gA",
   "heterozygous", "", ""]

set_option maxRecDepth 80000 in
/-- C9 counterexample: a stream with one malformed row fails outright (the
unpack `ValueError` propagates, so the remaining rows are not processed and
the claim's no-unhandled-exception/skip-and-continue behavior does not hold),
while the same stream without the malformed row succeeds. -/
theorem c9_counterexample :
    run_ok (process_genotype_features [] [] [c9_good1, c9_bad_row, c9_good2]) = false
    ∧ run_ok (process_genotype_features [] [] [c9_good1, c9_good2]) = true :=
  ⟨by decide, by decide⟩

/-- C9 (amended): a malformed row (field count other than 14) is not logged
and skipped; the tuple unpacking raises a `ValueError` that aborts the whole
`_process_genotype_features` call, wherever in the stream the row occurs. -/
theorem c9_malformed_row_aborts (bg bglab : ODict String)
    (pre post : List (List String)) (bad : List String)
    (h : unpack_row bad = none) :
    run_ok (process_genotype_features bg bglab (pre ++ bad :: post)) = false := by
  obtain ⟨e, he⟩ := foldl_row_step_error bg bglab bad h post pre initFeatState
  unfold process_genotype_features run_ok
  rw [he]

/-- Witness for C9 applying the abort theorem to the concrete 13-field row. -/
theorem c9_witness :
    unpack_row c9_bad_row = none
    ∧ run_ok (process_genotype_features [] []
        ([c9_good1] ++ c9_bad_row :: [c9_good2])) = false :=
  ⟨rfl, c9_malformed_row_aborts [] [] [c9_good1] [c9_good2] c9_bad_row rfl⟩

end Dipper
